import Mathlib

/-!
Verification of `src/commands/dump.py` (messenger-dumper): a shallow
embedding of the functions the claims concern, followed by one theorem per
claim.  Python strings are modelled as `String` or `List Char` (Facebook
offsets are UTF-16 units; the surrogate add/remove wrappers are the identity
on BMP text), header/float durations as `ℚ`, optional values as `Option`,
and a raised exception as `Except.error`.  Python truthiness of an optional
string (None or empty means falsy) is `optStrTruthy`.
-/

namespace MessengerDumper

/-- Python truthiness of an `Optional[str]`: `None` and `""` are falsy. -/
def optStrTruthy : Option String → Bool
  | none => false
  | some s => s != ""

/-- Python `a or b` on two `Optional[str]` values: `a` when truthy, else `b`. -/
def pyStrOptOr (a b : Option String) : Option String :=
  if optStrTruthy a then a else b

/-! ## C1 — reaction aggregation (dump.py lines 550-562)

`convert_message` groups `message.message_reactions` with
`itertools.groupby(..., lambda x: x.reaction)` WITHOUT sorting first;
`itertools.groupby` only merges adjacent equal keys. -/

/-- Python `itertools.groupby` followed by `len(list(group))`: one `(key,
run-length)` pair per maximal run of adjacent equal elements. -/
def pyGroupby {α : Type} [DecidableEq α] : List α → List (α × Nat)
  | [] => []
  | a :: rest =>
    match pyGroupby rest with
    | [] => [(a, 1)]
    | (b, n) :: tail =>
      if a = b then (a, n + 1) :: tail else (a, 1) :: (b, n) :: tail

/-- Lines 550-562 of `convert_message`: the `reactions` rows
`(message_id, emoji, count)` built from the message's reaction list (the
emoji of each reaction instance, in list order).  When the list is empty the
`reactions` key is absent, which this model renders as the empty row list. -/
def convert_message_reactions (message_id : String) (reactions : List String) :
    List (String × String × Nat) :=
  if reactions.length > 0 then
    (pyGroupby reactions).map fun g => (message_id, g.1, g.2)
  else []

/-! ## C3 — download retry schedule (dump.py lines 219-240)

`reupload_fb_file` starts with `attempts = 0`, and in each loop iteration
first returns `None` when `attempts > 10`, otherwise tries the download and,
on a transport error, sleeps `2 ** attempts` seconds and increments
`attempts`.  Specialised here to the claim's hypothesis that every download
attempt fails with a transport-level error: the returned value together with
the list of sleep durations, in order.  `none` models the abandoned download
(the function returns before any upload is attempted). -/

/-- Download loop of `reupload_fb_file` under an always-failing download:
result and the backoff sleeps performed, starting from a given `attempts`
counter (the source starts it at 0). -/
def reupload_fb_file_all_fail (attempts : Nat) :
    Option (String × String) × List Nat :=
  if h : attempts > 10 then (none, [])
  else
    let rest := reupload_fb_file_all_fail (attempts + 1)
    (rest.1, 2 ^ attempts :: rest.2)
termination_by 11 - attempts
decreasing_by
  simp_wf
  omega

/-! ## C9 — upload-host rate-limit wait (dump.py lines 205-217)

`parse_ratelimit_header` reads `X-Ratelimit-Reset` (`reset`) and
`X-Ratelimit-Reset-After` (`reset_after`); `if not reset: return 60.0`
fires before `reset_after` is ever consulted.  Header values are modelled
already parsed as rationals, with `none` for an absent (or empty, hence
falsy) header; the caller at line 258 always uses `use_clock = False`. -/

/-- Lines 205-217: the wait duration chosen from the host's rate-limit
headers.  `now` stands for `datetime.datetime.now(utc)` as a timestamp. -/
def parse_ratelimit_header (reset reset_after : Option ℚ) (use_clock : Bool)
    (now : ℚ) : ℚ :=
  match reset, reset_after with
  | none, _ => 60
  | some r, none => r - now
  | some r, some ra => if use_clock then r - now else ra

/-! ## C4 — paginator step (dump.py lines 723-772)

After a successful fetch the loop body is: stop when the page is empty,
otherwise process the messages and set
`before_time_ms = messages[0].timestamp - 1`.  There is no other exit. -/

/-- A fetched message, reduced to the only field the pagination decision
reads. -/
structure FBMessage where
  timestamp : Int
deriving DecidableEq

/-- Outcome of one successful iteration of the backfill loop: either the
loop ends (`stop`) or it repeats with a new cursor. -/
inductive PageOutcome where
  | stop : PageOutcome
  | nextCursor (before_time_ms : Int) : PageOutcome
deriving DecidableEq

/-- Lines 746-772: the loop's continuation decision on a successful fetch.
`[]` models `len(messages) == 0 or not messages`; otherwise the new cursor
is `messages[0].timestamp - 1`, with no check that it advanced. -/
def page_step (messages : List FBMessage) : PageOutcome :=
  match messages with
  | [] => PageOutcome.stop
  | m :: _ => PageOutcome.nextCursor (m.timestamp - 1)

/-! ## C5 — canonical thread ID (dump.py lines 584-611, 656-658, 726, 763-765)

`real_thread_id` starts as the requested `thread_id` and is overwritten by
`thread_info[0].thread_key.id` when that differs; a `None` canonical ID makes
the channel be skipped.  Persistence (channel row, resume-index query,
`convert_message`, the attachment workers) uses `real_thread_id`, but the
page fetch at line 726 is `api.fetch_messages(thread_id, ...)` with the
originally requested ID. -/

/-- ID resolution for one channel: given the requested `thread_id` and the
metadata's `thread_key.id` (`none` models Python `None`), returns `none`
when the channel is skipped, else `(fetch id, persistence id)`: the first
component is what line 726 passes to `api.fetch_messages`, the second is
`real_thread_id` as used by every persistence site. -/
def resolve_thread_ids (thread_id : Int) (thread_key_id : Option Int) :
    Option (Int × Int) :=
  let real_thread_id : Option Int :=
    if thread_key_id = some thread_id then some thread_id else thread_key_id
  match real_thread_id with
  | none => none
  | some rid => some (thread_id, rid)

/-! ## C6 — page size (dump.py lines 81-88 and 728)

`add_command` declares `--messages-per-fetch` with default 95 ("Number of
messages to fetch each time"), but `execute` calls
`api.fetch_messages(thread_id, before_time_ms, msg_count=95)` with a literal
95; `args.messages_per_fetch` is never read anywhere in `execute`. -/

/-- Line 85: the declared default of `--messages-per-fetch`. -/
def messages_per_fetch_default : Nat := 95

/-- Line 728: the `msg_count` actually passed to `api.fetch_messages`, as a
function of the parsed `--messages-per-fetch` value.  The source passes the
literal 95 and ignores the argument. -/
def fetch_messages_msg_count (_messages_per_fetch : Nat) : Nat := 95

/-! ## C7 — page-fetch error dispatch (dump.py lines 723-744)

`except RateLimitExceeded` sleeps 300s and `continue`s with
`before_time_ms` untouched.  `except ResponseError` computes
`code = e.data.get("code", "")`,
`subcode = e.data.get("subcode") or e.data.get("error_subcode")`,
`code_str = f"{code}.{subcode}" if subcode else str(code)`, re-raises unless
`code_str == "1675004"`, and otherwise also sleeps 300s and `continue`s.
Any other exception type is not caught. -/

/-- An error raised by `api.fetch_messages`, as the loop distinguishes them:
the structured rate-limit exception, or a `ResponseError` carrying the
(stringified) `code`, `subcode` and `error_subcode` fields of its data. -/
inductive FetchError where
  | rateLimitExceeded : FetchError
  | responseError (code : String) (subcode : Option String)
      (error_subcode : Option String) : FetchError
deriving DecidableEq

/-- Outcome of a failed fetch iteration: sleep and retry with a cursor, or
let the exception propagate out of the channel loop. -/
inductive PageFetchOutcome where
  | sleepRetry (seconds : Nat) (before_time_ms : Int) : PageFetchOutcome
  | raiseError : PageFetchOutcome
deriving DecidableEq

/-- Lines 736-737: the `code_str` a `ResponseError` is classified by,
including the Python-truthiness `or` between `subcode` and
`error_subcode`. -/
def response_error_code_str (code : String)
    (subcode error_subcode : Option String) : String :=
  match pyStrOptOr subcode error_subcode with
  | some s => if s != "" then code ++ "." ++ s else code
  | none => code

/-- Lines 730-744: the two `except` arms of the fetch, with the cursor that
a retry re-uses (`continue` leaves `before_time_ms` unchanged). -/
def handle_fetch_error (before_time_ms : Int) (e : FetchError) :
    PageFetchOutcome :=
  match e with
  | FetchError.rateLimitExceeded => PageFetchOutcome.sleepRetry 300 before_time_ms
  | FetchError.responseError code subcode error_subcode =>
    if response_error_code_str code subcode error_subcode ≠ "1675004" then
      PageFetchOutcome.raiseError
    else
      PageFetchOutcome.sleepRetry 300 before_time_ms

/-- Modelled from the spec's words (C7): a "rate-limit signal" is either the
structured rate-limit error or a response error whose code string equals
"1675004". -/
def is_rate_limit_signal : FetchError → Bool
  | FetchError.rateLimitExceeded => true
  | FetchError.responseError code subcode error_subcode =>
    response_error_code_str code subcode error_subcode == "1675004"

/-! ## C10 — filename extension guessing (dump.py lines 316-319)

`convert_attachment` begins with
`if attachment.mimetype and "." not in filename: filename +=
mimetypes.guess_extension(attachment.mimetype)`; when the guess is `None`
the `str + None` concatenation raises `TypeError`.  The stdlib lookup is a
parameter `guess_extension`. -/

/-- Lines 316-319: the filename step of `convert_attachment`.
`Except.error ()` models the `TypeError` raised by `filename + None`. -/
def convert_attachment_filename (filename : String) (mimetype : Option String)
    (guess_extension : String → Option String) : Except Unit String :=
  match mimetype with
  | none => Except.ok filename
  | some mt =>
    if mt != "" && !(filename.contains '.') then
      match guess_extension mt with
      | none => Except.error ()
      | some ext => Except.ok (filename ++ ext)
    else Except.ok filename

/-! ## C2 — attachment worker (dump.py lines 437-501)

Per message pulled from the queue: when the message has a sticker not in
the resume index, `convert_sticker` is called and its result is subscripted
(`converted_sticker["name"]`, ...) with no `None` check — a `None` result
raises `TypeError`, modelled as `Except.error ()`.  Blob attachments not in
the resume index are converted concurrently and `None` results are skipped
(`if not attachment: continue`); the surviving rows are forwarded.  The
conversion outcomes are parameters, since they depend on the network. -/

/-- Result dictionary of a successful `convert_sticker` (lines 300-305). -/
structure StickerConv where
  name : String
  url : String
  width : Nat
  height : Nat
deriving DecidableEq

/-- Result dictionary of a successful `convert_attachment` (lines 356-361). -/
structure AttachConv where
  id : String
  name : String
  attachment_type : String
  url : String
deriving DecidableEq

/-- One `attachments` tuple as sent to the writer queue:
`(id, message_id, name, type, url, width, height)`. -/
abbrev AttachmentRow :=
  String × String × String × String × String × Option Nat × Option Nat

/-- Lines 437-501: the processing of one message by `attachment_worker`.
`sticker` is the message's sticker ID when it has one,
`convert_sticker_result` the outcome of `convert_sticker` for it,
`convert_attachment_result` the outcome of `convert_attachment` per blob
attachment ID.  `Except.ok rows` is the batch forwarded to the writer
queue; `Except.error ()` is an exception escaping the worker. -/
def attachment_worker_process (message_id : String) (sticker : Option String)
    (blob_attachment_ids : List String) (fetched_attachment_ids : List String)
    (convert_sticker_result : Option StickerConv)
    (convert_attachment_result : String → Option AttachConv) :
    Except Unit (List AttachmentRow) :=
  let sticker_rows : Except Unit (List AttachmentRow) :=
    match sticker with
    | none => Except.ok []
    | some sid =>
      if sid ∈ fetched_attachment_ids then Except.ok []
      else
        match convert_sticker_result with
        | none => Except.error ()
        | some c =>
          Except.ok [(sid, message_id, c.name, "sticker", c.url,
            some c.width, some c.height)]
  match sticker_rows with
  | Except.error e => Except.error e
  | Except.ok srows =>
    let gathered :=
      (blob_attachment_ids.filter
        (fun aid => decide (aid ∉ fetched_attachment_ids))).map
        convert_attachment_result
    let brows := gathered.filterMap fun o =>
      o.map fun c =>
        (c.id, message_id, c.name, c.attachment_type, c.url,
          (none : Option Nat), (none : Option Nat))
    Except.ok (srows ++ brows)

/-! ## C8 — mention substitution (dump.py lines 516-522)

`for m in reversed(message.message.ranges):` skips a range whose entity or
entity ID is falsy and otherwise rewrites
`msg_text = msg_text[:offset] + f"<@{id}>" + msg_text[offset + leng:]`.
The text is a `List Char` (Python slices clamp exactly like `take`/`drop`);
the surrounding `utf16_surrogate.add`/`remove` pair is the identity on BMP
text and `escape_markdown` leaves text without markdown specials unchanged,
so the claims about this loop are stated on the loop itself. -/

/-- A mention range: `offset`/`length` into the text, and the entity ID
(`none` models a missing entity or a missing ID, `some ""` an empty one). -/
structure MentionRange where
  offset : Nat
  length : Nat
  entity_id : Option String
deriving DecidableEq

/-- The mention token `f"<@{id}>"` as characters. -/
def mention_token (eid : String) : List Char :=
  '<' :: '@' :: (eid.data ++ ['>'])

/-- One iteration of the loop body: the range is skipped when its entity ID
is falsy, otherwise spliced in place. -/
def apply_mention_range (s : List Char) (m : MentionRange) : List Char :=
  match m.entity_id with
  | none => s
  | some eid =>
    if eid = "" then s
    else s.take m.offset ++ mention_token eid ++ s.drop (m.offset + m.length)

/-- Lines 516-522: the whole loop, iterating over `reversed(ranges)`. -/
def convert_message_mentions (text : List Char) (ranges : List MentionRange) :
    List Char :=
  ranges.reverse.foldl apply_mention_range text

/-- Modelled from the spec's words (C8): "forward-order application", the
same splices performed in the list's given order instead. -/
def convert_message_mentions_forward (text : List Char)
    (ranges : List MentionRange) : List Char :=
  ranges.foldl apply_mention_range text

/-- Well-formed range list against a text of length `n`, from position `i`:
every range has a truthy entity ID, starts at or after `i`, ends within the
text, and the ranges are listed in increasing offset order without
overlaps. -/
def ranges_ok (n : Nat) : Nat → List MentionRange → Bool
  | _, [] => true
  | i, r :: rs =>
    optStrTruthy r.entity_id && decide (i ≤ r.offset)
      && decide (r.offset + r.length ≤ n)
      && ranges_ok n (r.offset + r.length) rs

/-- Simultaneous substitution: the text from position `i` on, with every
listed range of the ORIGINAL text replaced by its mention token. -/
def render_mentions (s : List Char) : Nat → List MentionRange → List Char
  | i, [] => s.drop i
  | i, r :: rs =>
    (s.take r.offset).drop i ++ mention_token (r.entity_id.getD "")
      ++ render_mentions s (r.offset + r.length) rs

/-- The reversed loop as a right fold, for induction. -/
def apply_mentions_rev (s : List Char) (rs : List MentionRange) : List Char :=
  rs.foldr (fun m acc => apply_mention_range acc m) s

lemma optStrTruthy_iff (o : Option String) :
    optStrTruthy o = true ↔ ∃ s, o = some s ∧ s ≠ "" := by
  cases o <;> simp [optStrTruthy]

lemma convert_message_mentions_eq_rev (s : List Char)
    (rs : List MentionRange) :
    convert_message_mentions s rs = apply_mentions_rev s rs := by
  unfold convert_message_mentions apply_mentions_rev
  exact List.foldl_reverse rs apply_mention_range s

lemma apply_mention_range_eq (s : List Char) (m : MentionRange)
    (eid : String) (heq : m.entity_id = some eid) (hne : eid ≠ "") :
    apply_mention_range s m =
      s.take m.offset ++ mention_token eid ++ s.drop (m.offset + m.length) := by
  simp [apply_mention_range, heq, hne]

lemma ranges_ok_cons (n i : Nat) (r : MentionRange) (rs : List MentionRange)
    (h : ranges_ok n i (r :: rs) = true) :
    (∃ eid, r.entity_id = some eid ∧ eid ≠ "") ∧ i ≤ r.offset ∧
      r.offset + r.length ≤ n ∧ ranges_ok n (r.offset + r.length) rs = true := by
  simp only [ranges_ok, Bool.and_eq_true, decide_eq_true_eq] at h
  exact ⟨(optStrTruthy_iff _).mp h.1.1.1, h.1.1.2, h.1.2, h.2⟩

lemma apply_mentions_rev_take (rs : List MentionRange) :
    ∀ (s : List Char) (k j : Nat), ranges_ok s.length j rs = true → k ≤ j →
      (apply_mentions_rev s rs).take k = s.take k := by
  induction rs with
  | nil => intro s k j _ _; rfl
  | cons r rs ih =>
    intro s k j h hkj
    obtain ⟨⟨eid, heq, hne⟩, hoff, hbound, hrest⟩ := ranges_ok_cons _ _ _ _ h
    have hkro : k ≤ r.offset := le_trans hkj hoff
    have hks : k ≤ s.length :=
      le_trans hkro (le_trans (Nat.le_add_right _ _) hbound)
    have hFk : (apply_mentions_rev s rs).take k = s.take k :=
      ih s k (r.offset + r.length) hrest
        (le_trans hkro (Nat.le_add_right _ _))
    have hkF : k ≤ (apply_mentions_rev s rs).length := by
      have hlen := congrArg List.length hFk
      simp only [List.length_take] at hlen
      omega
    have hstep : apply_mentions_rev s (r :: rs)
        = apply_mention_range (apply_mentions_rev s rs) r := rfl
    rw [hstep, apply_mention_range_eq _ _ eid heq hne]
    have hkA : k ≤ (List.take r.offset (apply_mentions_rev s rs)).length := by
      simp only [List.length_take]
      exact le_min hkro hkF
    rw [List.take_append_of_le_length
      (by simp only [List.length_append]; omega)]
    rw [List.take_append_of_le_length hkA]
    rw [List.take_take, Nat.min_eq_left hkro]
    exact hFk

lemma apply_mentions_rev_drop (rs : List MentionRange) :
    ∀ (s : List Char) (i : Nat), ranges_ok s.length i rs = true →
      (apply_mentions_rev s rs).drop i = render_mentions s i rs := by
  induction rs with
  | nil => intro s i _; rfl
  | cons r rs ih =>
    intro s i h
    obtain ⟨⟨eid, heq, hne⟩, hoff, hbound, hrest⟩ := ranges_ok_cons _ _ _ _ h
    have hro : r.offset ≤ s.length := le_trans (Nat.le_add_right _ _) hbound
    have hFoff : (apply_mentions_rev s rs).take r.offset = s.take r.offset :=
      apply_mentions_rev_take rs s r.offset (r.offset + r.length) hrest
        (Nat.le_add_right _ _)
    have hstep : apply_mentions_rev s (r :: rs)
        = apply_mention_range (apply_mentions_rev s rs) r := rfl
    rw [hstep, apply_mention_range_eq _ _ eid heq hne]
    rw [hFoff]
    rw [List.append_assoc]
    rw [List.drop_append_of_le_length
      (by simp only [List.length_take]
          exact le_min hoff (le_trans hoff hro))]
    rw [ih s (r.offset + r.length) hrest]
    simp [render_mentions, heq, List.append_assoc]

/-! ## Claim theorems -/

/-- C1 (code_bug evaluation): on the reaction list `[😀, ❤, 😀, 😀]`,
`convert_message` emits the rows `(😀,1), (❤,1), (😀,2)` — two rows for 😀
and none with count 3 — because `itertools.groupby` is applied without
sorting, so grouping depends on adjacency; the claim (one row per distinct
emoji, `(😀,3)` and `(❤,1)`) fails. -/
theorem reaction_rows_adjacent_grouping_bug :
    convert_message_reactions "m1" ["😀", "❤", "😀", "😀"] =
      [("m1", "😀", 1), ("m1", "❤", 1), ("m1", "😀", 2)] ∧
    ("m1", "😀", 3) ∉ convert_message_reactions "m1" ["😀", "❤", "😀", "😀"] := by
  constructor
  · rfl
  · decide

/-- C2 (code_bug evaluation): a message with an unfetched sticker whose
`convert_sticker` result is `None` makes `attachment_worker` raise
(`converted_sticker["name"]` subscripts `None`), so the error escapes the
worker instead of the row being omitted; by contrast a blob attachment whose
conversion is `None` is skipped and the remaining rows are forwarded. -/
theorem sticker_none_result_crashes_worker :
    attachment_worker_process "m1" (some "s1") [] [] none (fun _ => none) =
      Except.error () ∧
    attachment_worker_process "m1" none ["a1", "a2"] [] none
        (fun aid => if aid = "a1"
          then some ⟨"a1", "f1", "image", "u1"⟩ else none) =
      Except.ok [("a1", "m1", "f1", "image", "u1", none, none)] := by
  constructor
  · rfl
  · rfl

/-- C3 counterexample: with every download attempt failing, the loop sleeps
11 times, not 10 — the delays are not `2^0..2^9`. -/
theorem download_retry_count_is_eleven_not_ten :
    (reupload_fb_file_all_fail 0).2.length = 11 ∧
    (reupload_fb_file_all_fail 0).2 ≠
      [1, 2, 4, 8, 16, 32, 64, 128, 256, 512] := by
  have h : reupload_fb_file_all_fail 0 =
      (none, [1, 2, 4, 8, 16, 32, 64, 128, 256, 512, 1024]) := by
    simp [reupload_fb_file_all_fail]
  rw [h]
  simp

/-- C3 (amended): a download failing on every attempt is retried exactly 11
times (the guard `attempts > 10` is checked before each try), with delays
`2^0..2^10` seconds after the failed attempts, and then abandoned: `None` is
returned and no upload is performed. -/
theorem download_all_fail_attempt_schedule :
    reupload_fb_file_all_fail 0 =
      (none, [1, 2, 4, 8, 16, 32, 64, 128, 256, 512, 1024]) := by
  simp [reupload_fb_file_all_fail]

/-- C4 (code_bug evaluation): with cursor 100 and a successful fetch whose
single message has timestamp 101, the loop computes the new cursor
`101 - 1 = 100` — unchanged — and continues instead of treating the channel
as exhausted: no defensive cursor-advance check exists, the only exit is an
empty page. -/
theorem paginator_continues_on_non_advancing_cursor :
    page_step [⟨101⟩] = PageOutcome.nextCursor 100 ∧
    page_step [⟨101⟩] ≠ PageOutcome.stop := by
  constructor
  · rfl
  · decide

/-- C5 counterexample: requesting thread 1 while the metadata reports the
canonical ID 2 makes every page fetch still use 1 (the requested ID), while
persistence uses 2 — the fetches do not use the canonical ID. -/
theorem fetch_uses_requested_id_not_canonical :
    resolve_thread_ids 1 (some 2) = some (1, 2) ∧ (1 : Int) ≠ 2 := by
  constructor
  · rfl
  · decide

/-- C5 (amended): persistence of channel, user, message and attachment rows
uses the canonical ID, and an absent (null) canonical ID aborts the channel;
but every message-page fetch uses the originally requested thread ID. -/
theorem thread_id_resolution (thread_id : Int) :
    resolve_thread_ids thread_id none = none ∧
    ∀ canonical : Int, resolve_thread_ids thread_id (some canonical) =
      some (thread_id, canonical) := by
  constructor
  · simp [resolve_thread_ids]
  · intro canonical
    by_cases h : canonical = thread_id <;>
      simp [resolve_thread_ids, h]

/-- C6 (code_bug evaluation): the declared default of `--messages-per-fetch`
is 95, but the `msg_count` passed to `api.fetch_messages` is the literal 95
regardless of the parsed value — a user-supplied override of 50 is
ignored. -/
theorem msg_count_ignores_override :
    messages_per_fetch_default = 95 ∧
    fetch_messages_msg_count 50 = 95 ∧ (50 : Nat) ≠ 95 := by
  refine ⟨rfl, rfl, ?_⟩
  decide

/-- C7: a page-fetch error makes the loop sleep 300 seconds and retry with
the unchanged cursor exactly when it is the structured rate-limit error or a
response error whose code string equals "1675004"; every other response
error propagates (and no other exception type is caught). -/
theorem fetch_error_rate_limit_dispatch (before_time_ms : Int)
    (e : FetchError) :
    handle_fetch_error before_time_ms e =
      if is_rate_limit_signal e
      then PageFetchOutcome.sleepRetry 300 before_time_ms
      else PageFetchOutcome.raiseError := by
  cases e with
  | rateLimitExceeded => rfl
  | responseError code subcode error_subcode =>
    by_cases h : response_error_code_str code subcode error_subcode = "1675004" <;>
      simp [handle_fetch_error, is_rate_limit_signal, h]

/-- C9 counterexample: with `X-Ratelimit-Reset` absent but
`X-Ratelimit-Reset-After: 5` present, the wait is the 60-second default, not
the 5 seconds of the reset-after header — reset-after is not preferred
whenever present, and the default is not reserved for the no-header case. -/
theorem reset_after_ignored_without_reset_header :
    parse_ratelimit_header none (some 5) false 0 = 60 ∧ (5 : ℚ) ≠ 60 := by
  constructor
  · rfl
  · norm_num

/-- C9 (amended): at the call site (`use_clock = False`) the reset-after
header is used only when the absolute reset header is also present;
seconds-until-reset is computed when only the absolute reset header is
present; and the 60-second default applies whenever the absolute reset
header is absent, even if reset-after is present. -/
theorem ratelimit_header_wait_selection (r ra now : ℚ) :
    parse_ratelimit_header (some r) (some ra) false now = ra ∧
    parse_ratelimit_header (some r) none false now = r - now ∧
    ∀ after : Option ℚ, parse_ratelimit_header none after false now = 60 := by
  refine ⟨rfl, rfl, fun after => ?_⟩
  cases after <;> rfl

/-- C10: the filename step of `convert_attachment` raises (string plus
`None`) exactly when the declared media type is truthy, the service-provided
filename contains no ".", and the extension lookup yields `None`; in every
other case it returns a filename normally. -/
theorem attachment_filename_error_iff (filename : String)
    (mimetype : Option String) (guess_extension : String → Option String) :
    convert_attachment_filename filename mimetype guess_extension =
        Except.error () ↔
      ∃ mt, mimetype = some mt ∧ mt ≠ "" ∧
        filename.contains '.' = false ∧ guess_extension mt = none := by
  cases mimetype with
  | none => simp [convert_attachment_filename]
  | some mt =>
    simp only [convert_attachment_filename, Option.some.injEq]
    by_cases hmt : mt = ""
    · subst hmt
      simp
    · by_cases hdot : filename.contains '.'
      · simp [hmt, hdot]
      · cases hg : guess_extension mt with
        | none =>
          simp [hmt, hdot, hg]
        | some ext =>
          simp [hmt, hdot, hg]

/-- C8 counterexample: the text "ab cd" with the non-overlapping ranges
`{offset 0, length 2, entity X}` and `{offset 3, length 2, entity Y}`
(well-formed per `ranges_ok`) yields "<@X> <@Y>" under the code's
reverse-order application but "<@X<@Y>cd" under forward-order application —
the two are not equal, because the tokens change the text's length. -/
theorem mention_forward_order_differs :
    ranges_ok ("ab cd".data.length) 0
      [⟨0, 2, some "X"⟩, ⟨3, 2, some "Y"⟩] = true ∧
    convert_message_mentions "ab cd".data
        [⟨0, 2, some "X"⟩, ⟨3, 2, some "Y"⟩] ≠
      convert_message_mentions_forward "ab cd".data
        [⟨0, 2, some "X"⟩, ⟨3, 2, some "Y"⟩] := by
  constructor
  · decide
  · decide

/-- C8 (amended): for mention ranges listed in increasing offset order,
non-overlapping, within the text, and with truthy entity IDs, the loop's
reverse-list-order processing (highest offset first, so earlier replacements
cannot invalidate later offsets) replaces every range of the ORIGINAL text
by its mention token — the simultaneous substitution `render_mentions` —
which naive forward-order application does not generally produce. -/
theorem mention_reverse_order_simultaneous (s : List Char)
    (rs : List MentionRange) (h : ranges_ok s.length 0 rs = true) :
    convert_message_mentions s rs = render_mentions s 0 rs := by
  rw [convert_message_mentions_eq_rev]
  have hd := apply_mentions_rev_drop rs s 0 h
  simpa using hd

/-- C8 witness: the claim's own example — "hello world" with the range
`{offset 6, length 5, entityID 42}` satisfies the hypotheses, and the
substituted text is "hello <@42>". -/
theorem mention_reverse_order_simultaneous_witness :
    ranges_ok ("hello world".data.length) 0 [⟨6, 5, some "42"⟩] = true ∧
    convert_message_mentions "hello world".data [⟨6, 5, some "42"⟩] =
      render_mentions "hello world".data 0 [⟨6, 5, some "42"⟩] ∧
    render_mentions "hello world".data 0 [⟨6, 5, some "42"⟩] =
      "hello <@42>".data :=
  ⟨by decide, mention_reverse_order_simultaneous _ _ (by decide), by decide⟩

end MessengerDumper
